import Mathlib

/-!
Shallow embedding of `src/tools/synth.py`, the PostureKeeper synthetic
training-data generator.

Modelling conventions:
* Python strings become `String`; `str.lower` becomes an ASCII lowercase map.
* `random.choice l` is modelled by an arbitrary draw index reduced modulo the
  length of `l`; `random.randint lo hi` by `lo + off % (hi + 1 - lo)` for an
  arbitrary draw `off` (both ends inclusive, as in Python).
* The external, fallible operations of one loop iteration of
  `generate_dataset` (the diffusion-pipeline call inside `generate_image`,
  `image.save`, and appending a line to `annotations.jsonl`) are modelled by
  Boolean outcome fields of a per-iteration environment `ItemEnv`; a `false`
  outcome means the corresponding Python call raised an exception.
* The MD5 hash (`hashlib.md5(...).hexdigest()[:8]`) and the timestamp
  (`datetime.now().isoformat()`) are opaque inputs.
* The diffusion pipeline itself is external; what the program controls is the
  keyword-argument record passed to it, embedded as `PipeKwargs`.
* A SIGINT delivered during iteration `i` is the field `sigint` of that
  iteration's environment: the installed handler only sets the `interrupted`
  flag, which the loop head tests (lines 510-525 of the source).
-/

namespace PostureSynth

/-- Python `str.lower` (the model identifiers used are ASCII). -/
def pyLower (s : String) : String := String.mk (s.toList.map Char.toLower)

/-- Is the first character list a prefix of the second? -/
def charsPrefix : List Char → List Char → Bool
  | [], _ => true
  | _ :: _, [] => false
  | a :: as, b :: bs => a == b && charsPrefix as bs

/-- Does `needle` occur as a contiguous run inside the second list? -/
def charsInfix (needle : List Char) : List Char → Bool
  | [] => needle.isEmpty
  | b :: bs => charsPrefix needle (b :: bs) || charsInfix needle bs

/-- Python `needle in hay` on strings. -/
def pyIn (needle hay : String) : Bool := charsInfix needle.toList hay.toList

/-- Python `random.choice l`, modelled by an arbitrary draw index `i` reduced
modulo the length of the list. -/
def pick (l : List String) (i : Nat) : String := l.getD (i % l.length) ""

/-- Python `random.randint lo hi` (both ends inclusive), modelled by an
arbitrary draw `off` reduced modulo the size of the range. -/
def randint (lo hi off : Nat) : Nat := lo + off % (hi + 1 - lo)

/-- Python `sep.join l`. -/
def pyJoin (sep : String) : List String → String
  | [] => ""
  | [x] => x
  | x :: y :: xs => x ++ sep ++ pyJoin sep (y :: xs)

/-- Python `filter(None, l)` on a list of strings: drop the empty ones. -/
def filterTruthy (l : List String) : List String := l.filter (fun s => !s.isEmpty)

/-- Python `f"{i:05d}"`: decimal, left-padded with zeros to width 5. -/
def pad5 (i : Nat) : String :=
  let s := toString i
  String.mk (List.replicate (5 - s.length) (Char.ofNat 48)) ++ s

/-! Class-level constant lists of `PostureDataGenerator` (source lines 80-123). -/

def AGES : List String :=
  ["teenage", "young adult", "middle-aged", "senior", "in their 20s",
   "in their 30s", "in their 40s", "in their 50s"]

def GENDERS : List String := ["man", "woman", "person", "male", "female"]

def ETHNICITIES : List String :=
  ["Asian", "Caucasian", "African American", "Hispanic", "Middle Eastern",
   "South Asian", "mixed ethnicity"]

def BUILDS : List String :=
  ["slim", "average build", "athletic", "heavy-set", "tall", "short", "medium height"]

def HAIR_STYLES : List String :=
  ["short hair", "long hair", "bald", "curly hair", "straight hair",
   "braided hair", "ponytail", "hair in a bun", "buzz cut"]

def GLASSES : List String :=
  ["wearing glasses", "without glasses", "with thick-framed glasses",
   "wearing reading glasses", ""]

def POSTURE_SEVERE : List String :=
  ["severe forward head posture looking at screen",
   "extreme neck crane toward monitor",
   "pronounced turtle neck at computer",
   "severe text neck viewing display",
   "head far forward staring at screen"]

def POSTURE_MODERATE : List String :=
  ["moderate forward head looking at screen",
   "head forward of shoulders viewing monitor",
   "mild turtle neck toward display",
   "slight neck strain at computer",
   "forward lean watching screen"]

def POSTURE_NORMAL : List String :=
  ["good upright posture at monitor",
   "proper ergonomic position viewing screen",
   "neutral spine looking at display",
   "healthy posture at computer",
   "aligned posture watching screen"]

def LIGHTING : List String :=
  ["soft natural daylight", "warm indoor lighting", "cool white light",
   "gentle ambient lighting", "diffused window light", "soft evening light"]

def BACKGROUNDS : List String :=
  ["home interior", "room", "indoor space", "office", "living space", "workspace"]

def CAMERA_ANGLES : List String :=
  ["laptop webcam angle", "desktop webcam view", "slight upward angle from laptop",
   "eye-level webcam position"]

def CLOTHING : List String :=
  ["wearing a t-shirt", "in a hoodie", "wearing a button-up shirt", "in a sweater",
   "wearing casual clothes", "in work attire"]

def COLORS : List String :=
  ["black", "white", "blue", "gray", "navy", "dark colored", "light colored"]

def ACTIVITIES : List String :=
  ["looking at computer screen", "focused on monitor", "working at screen",
   "viewing display", "staring at monitor", "eyes on screen", "watching computer"]

def EXPRESSIONS : List String :=
  ["focused forward", "concentrated gaze", "attentive look", "eyes forward",
   "looking straight"]

/-! Data model for the metadata dictionary built by `generate_prompt`
(source lines 399-429). -/

structure Demographics where
  age : String
  gender : String
  ethnicity : String
  build : String
  hair : String
  glasses : String
  deriving DecidableEq, Repr

structure Appearance where
  clothing : String
  color : String
  deriving DecidableEq, Repr

structure EnvInfo where
  lighting : String
  background : String
  camera : String
  deriving DecidableEq, Repr

structure ContextInfo where
  activity : String
  expression : String
  deriving DecidableEq, Repr

/-- The nested `posture` record; the source dict key `type` is `ptype` here
because `type` is reserved in Lean. -/
structure PostureInfo where
  description : String
  ptype : String
  cva_angle : Nat
  deriving DecidableEq, Repr

structure Metadata where
  posture_type : String
  cva_angle : Nat
  demographics : Demographics
  appearance : Appearance
  environment : EnvInfo
  context : ContextInfo
  posture : PostureInfo
  timestamp : String
  deriving DecidableEq, Repr

/-- One random-draw environment for a single call of `generate_prompt`: the
indices of the `random.choice` calls, the `random.randint` draw for the CVA
angle, and the `datetime.now().isoformat()` string. -/
structure Draw where
  postureIdx : Nat
  cvaOff : Nat
  ageIdx : Nat
  genderIdx : Nat
  ethIdx : Nat
  buildIdx : Nat
  hairIdx : Nat
  glassesIdx : Nat
  lightIdx : Nat
  bgIdx : Nat
  camIdx : Nat
  clothIdx : Nat
  colorIdx : Nat
  actIdx : Nat
  exprIdx : Nat
  tstamp : String
  deriving DecidableEq, Repr

/-- The posture-severity description selected at source lines 327-336. -/
def postureDescOf (posture_type : String) (d : Draw) : String :=
  if posture_type = "interrupt-worthy" then pick POSTURE_SEVERE d.postureIdx
  else if posture_type = "borderline" then pick POSTURE_MODERATE d.postureIdx
  else pick POSTURE_NORMAL d.postureIdx

/-- The CVA angle drawn at source lines 327-336. -/
def cvaOf (posture_type : String) (d : Draw) : Nat :=
  if posture_type = "interrupt-worthy" then randint 30 48 d.cvaOff
  else if posture_type = "borderline" then randint 48 53 d.cvaOff
  else randint 53 70 d.cvaOff

/-- The branch condition of source line 360:
`self.model_id and ("flux" in ... or "sd3" in ...)`. -/
def fluxOrSd3 (modelId : String) : Bool :=
  !modelId.isEmpty && (pyIn "flux" (pyLower modelId) || pyIn "sd3" (pyLower modelId))

/-- The prompt text built at source lines 359-394 from the chosen attribute
strings. -/
def promptText (modelId age gender ethnicity hair glasses clothing color
    lighting background camera activity expression posture_desc : String) : String :=
  if fluxOrSd3 modelId then
    pyJoin ". " (filterTruthy [
      "A photorealistic webcam photograph of a " ++ age ++ " " ++ ethnicity ++ " " ++ gender,
      "sitting at a desk " ++ posture_desc,
      if hair ≠ "" then "The person has " ++ hair else "",
      if glasses ≠ "" then glasses else "",
      if clothing ≠ "" ∧ color ≠ "" then "wearing " ++ color ++ " " ++ clothing else "",
      "The person is " ++ activity ++ " with a " ++ expression,
      "Shot from a " ++ camera ++ ", showing upper body and head",
      "Indoor setting with " ++ lighting ++ " and a softly " ++ background ++ " in the background",
      "High quality, sharp focus on the person, natural skin tones",
      "Realistic office or home workspace environment"])
  else
    pyJoin ", " (filterTruthy [
      "Webcam photo of " ++ ethnicity ++ " " ++ gender ++ " working in front of a computer or laptop",
      hair,
      glasses,
      posture_desc,
      activity,
      lighting ++ ", blurred background",
      "portrait, looking more or less straight at the screen"])

/-- The negative prompt chosen at source lines 377-397. -/
def negPromptText (modelId : String) : String :=
  if fluxOrSd3 modelId then
    "cartoon, anime, illustration, painting, drawing, art, sketch, 3d render, " ++
    "blurry, out of focus, distorted face, deformed, ugly, mutated, disfigured, " ++
    "profile view, looking away from camera, eyes closed, looking down, looking up, " ++
    "multiple people, cropped head, cut off, bad anatomy, worst quality, low quality"
  else
    "cartoon, anime, blurry, distorted, profile view, looking away, looking sideways, eyes closed, looking down, looking up"

/-- `PostureDataGenerator.generate_prompt` (source lines 324-431): returns the
prompt, the negative prompt, and the metadata record, as functions of the
model id, the posture type, and the random draws. -/
def generate_prompt (modelId posture_type : String) (d : Draw) :
    String × String × Metadata :=
  let posture_desc := postureDescOf posture_type d
  let cva_angle := cvaOf posture_type d
  let age := pick AGES d.ageIdx
  let gender := pick GENDERS d.genderIdx
  let ethnicity := pick ETHNICITIES d.ethIdx
  let build := pick BUILDS d.buildIdx
  let hair := pick HAIR_STYLES d.hairIdx
  let glasses := pick GLASSES d.glassesIdx
  let lighting := pick LIGHTING d.lightIdx
  let background := pick BACKGROUNDS d.bgIdx
  let camera := pick CAMERA_ANGLES d.camIdx
  let clothing := pick CLOTHING d.clothIdx
  let color := pick COLORS d.colorIdx
  let activity := pick ACTIVITIES d.actIdx
  let expression := pick EXPRESSIONS d.exprIdx
  let prompt := promptText modelId age gender ethnicity hair glasses clothing color
    lighting background camera activity expression posture_desc
  let negative_prompt := negPromptText modelId
  let meta : Metadata :=
    { posture_type := posture_type
      cva_angle := cva_angle
      demographics := { age := age, gender := gender, ethnicity := ethnicity,
                        build := build, hair := hair, glasses := glasses }
      appearance := { clothing := clothing, color := color }
      environment := { lighting := lighting, background := background, camera := camera }
      context := { activity := activity, expression := expression }
      posture := { description := posture_desc, ptype := posture_type, cva_angle := cva_angle }
      timestamp := d.tstamp }
  (prompt, negative_prompt, meta)

def promptOf (modelId posture_type : String) (d : Draw) : String :=
  (generate_prompt modelId posture_type d).1

def negPromptOf (modelId posture_type : String) (d : Draw) : String :=
  (generate_prompt modelId posture_type d).2.1

def metaOf (modelId posture_type : String) (d : Draw) : Metadata :=
  (generate_prompt modelId posture_type d).2.2

/-! Model-type detection and inference-parameter dispatch
(source lines 159-174 and 304-319 of `__init__`, 444-482 of `generate_image`). -/

structure ModelFlags where
  is_sdxl : Bool
  is_turbo : Bool
  is_lightning : Bool
  is_flux : Bool
  is_sd3 : Bool
  deriving DecidableEq, Repr

/-- The model-type flags computed in `__init__` (source lines 159-174). -/
def modelFlags (modelId : String) : ModelFlags :=
  let m := pyLower modelId
  { is_sdxl := pyIn "sdxl" m || pyIn "realvis" m
    is_turbo := pyIn "turbo" m
    is_lightning := pyIn "lightning" m
    is_flux := pyIn "flux" m
    is_sd3 := pyIn "stable-diffusion-3" m }

/-- `self.steps`, set in `__init__` (source lines 304-319). -/
def initSteps (f : ModelFlags) : Nat :=
  if f.is_flux then 28
  else if f.is_sd3 then 28
  else if f.is_turbo || f.is_lightning then 2
  else if f.is_sdxl then 45
  else 40

/-- The guidance scale chosen in `generate_image` (source lines 444-462);
exact rationals stand for the Python float literals. -/
def guidanceScale (f : ModelFlags) : ℚ :=
  if f.is_flux then 7 / 2
  else if f.is_sd3 then 7
  else if f.is_turbo then 0
  else if f.is_lightning then 0
  else 15 / 2

/-- The image height chosen in `generate_image` (source lines 464-472). -/
def resHeight (f : ModelFlags) : Nat :=
  if f.is_flux then 1024
  else if f.is_sd3 then 1024
  else if f.is_sdxl then 1024
  else 512

/-- The image width chosen in `generate_image` (source lines 464-472). -/
def resWidth (f : ModelFlags) : Nat :=
  if f.is_flux then 768
  else if f.is_sd3 then 768
  else if f.is_sdxl then 768
  else 384

/-- The keyword-argument record `generate_image` passes to the external
diffusion pipeline (source lines 474-489). -/
structure PipeKwargs where
  prompt : String
  num_inference_steps : Nat
  guidance_scale : ℚ
  seed : Nat
  height : Nat
  width : Nat
  negative_prompt : Option String
  deriving DecidableEq, Repr

/-- The pipeline arguments built by `PostureDataGenerator.generate_image`
(source lines 433-489): `num_inference_steps` is always `self.steps`; the
negative prompt is added only when the guidance scale is positive and the
negative prompt is non-empty (source lines 484-486). -/
def generate_image_kwargs (modelId prompt negative_prompt : String) (seed : Nat) :
    PipeKwargs :=
  let f := modelFlags modelId
  let g := guidanceScale f
  { prompt := prompt
    num_inference_steps := initSteps f
    guidance_scale := g
    seed := seed
    height := resHeight f
    width := resWidth f
    negative_prompt := if 0 < g ∧ negative_prompt ≠ "" then some negative_prompt else none }

/-! The `generate_dataset` loop (source lines 493-591). -/

/-- The annotation record built at source lines 549-560; `generation` is the
nested dict of line 554. -/
structure GenInfo where
  prompt : String
  negative_prompt : String
  seed : Nat
  model : String
  deriving DecidableEq, Repr

structure AnnRecord where
  image_path : String
  category : String
  classification : String
  metadata : Metadata
  generation : GenInfo
  deriving DecidableEq, Repr

/-- The outside-world outcomes of one loop iteration: the category drawn by
`random.choices` over the distribution keys, the random draws of
`generate_prompt`, the seed draw of `generate_image`, whether each fallible
call returned normally (`genOk`: the pipeline call inside `generate_image`;
`saveOk`: `image.save`; `writeOk`: opening and appending to
`annotations.jsonl`), and whether a SIGINT was delivered during the
iteration. -/
structure ItemEnv where
  category : String
  draw : Draw
  seed : Nat
  genOk : Bool
  saveOk : Bool
  writeOk : Bool
  sigint : Bool
  deriving DecidableEq, Repr

/-- Observable side effects of the loop, in program order. -/
inductive Event where
  | promptBuilt : String → String → Metadata → Event
  | genCalled : PipeKwargs → Event
  | imageSaved : String → Event
  | lineAppended : AnnRecord → Event
  | errorLogged : Nat → Event
  deriving DecidableEq, Repr

/-- State carried across loop iterations: the interrupt flag set by the
SIGINT handler, the in-memory `annotations` list (source line 562), the lines
appended to `annotations.jsonl` (source lines 565-566), the image files
written (source line 546), and the event trace. -/
structure GenState where
  interrupted : Bool
  annRecords : List AnnRecord
  logLines : List AnnRecord
  files : List String
  events : List Event
  deriving DecidableEq, Repr

def initState : GenState :=
  { interrupted := false, annRecords := [], logLines := [], files := [], events := [] }

def itemPrompt (modelId : String) (e : ItemEnv) : String :=
  promptOf modelId e.category e.draw

def itemNegPrompt (modelId : String) (e : ItemEnv) : String :=
  negPromptOf modelId e.category e.draw

def itemMeta (modelId : String) (e : ItemEnv) : Metadata :=
  metaOf modelId e.category e.draw

/-- The seed drawn at source line 436: `random.randint(0, 2**32 - 1)`. -/
def itemSeed (e : ItemEnv) : Nat := randint 0 (2 ^ 32 - 1) e.seed

def itemKwargs (modelId : String) (e : ItemEnv) : PipeKwargs :=
  generate_image_kwargs modelId (itemPrompt modelId e) (itemNegPrompt modelId e) (itemSeed e)

/-- The filename built at source lines 541-542:
`f"{category}_{i:05d}_{prompt_hash}.png"` with
`prompt_hash = md5f prompt` (the truncated MD5 hex digest is opaque). -/
def itemFilename (modelId : String) (md5f : String → String) (i : Nat) (e : ItemEnv) : String :=
  e.category ++ "_" ++ pad5 i ++ "_" ++ md5f (itemPrompt modelId e) ++ ".png"

/-- The full path the image is saved to (source line 543). -/
def itemFilepath (modelId outputDir : String) (md5f : String → String)
    (i : Nat) (e : ItemEnv) : String :=
  outputDir ++ "/" ++ e.category ++ "/" ++ itemFilename modelId md5f i e

/-- The annotation dict of source lines 549-560; `image_path` is the path
relative to the output directory. -/
def itemRecord (modelId : String) (md5f : String → String) (i : Nat) (e : ItemEnv) :
    AnnRecord :=
  { image_path := e.category ++ "/" ++ itemFilename modelId md5f i e
    category := e.category
    classification := if e.category = "interrupt-worthy" then "interrupt-worthy"
                      else "leave-me-alone"
    metadata := itemMeta modelId e
    generation := { prompt := itemPrompt modelId e
                    negative_prompt := itemNegPrompt modelId e
                    seed := itemSeed e
                    model := modelId } }

/-- One iteration of the `for i in range(num_images)` loop body (source lines
523-578).  The `try` block (lines 537-578) covers the `generate_image` call,
the filename construction, `image.save`, the in-memory append, and the
append to `annotations.jsonl`; an exception from any of the three fallible
calls is caught by the `except` (lines 574-578), which logs the error and
continues.  The SIGINT handler only sets the `interrupted` flag, so an
interrupt during the iteration never cuts the iteration short. -/
def processItem (modelId outputDir : String) (md5f : String → String)
    (i : Nat) (e : ItemEnv) (s : GenState) : GenState :=
  let ev0 := s.events ++
    [Event.promptBuilt (itemPrompt modelId e) (itemNegPrompt modelId e) (itemMeta modelId e)]
  if e.genOk = false then
    { s with interrupted := s.interrupted || e.sigint,
             events := ev0 ++ [Event.errorLogged i] }
  else
    let ev1 := ev0 ++ [Event.genCalled (itemKwargs modelId e)]
    let fp := itemFilepath modelId outputDir md5f i e
    if e.saveOk = false then
      { s with interrupted := s.interrupted || e.sigint,
               events := ev1 ++ [Event.errorLogged i] }
    else
      let ev2 := ev1 ++ [Event.imageSaved fp]
      let r := itemRecord modelId md5f i e
      if e.writeOk = false then
        { s with interrupted := s.interrupted || e.sigint,
                 annRecords := s.annRecords ++ [r],
                 files := s.files ++ [fp],
                 events := ev2 ++ [Event.errorLogged i] }
      else
        { s with interrupted := s.interrupted || e.sigint,
                 annRecords := s.annRecords ++ [r],
                 files := s.files ++ [fp],
                 logLines := s.logLines ++ [r],
                 events := ev2 ++ [Event.lineAppended r] }

/-- The loop of source lines 523-578: the head checks the interrupt flag and
breaks before starting a further item. -/
def runItems (modelId outputDir : String) (md5f : String → String) :
    Nat → List ItemEnv → GenState → GenState
  | _, [], s => s
  | i, e :: rest, s =>
    if s.interrupted = true then s
    else runItems modelId outputDir md5f (i + 1) rest (processItem modelId outputDir md5f i e s)

/-- `PostureDataGenerator.generate_dataset` (source lines 493-591), run over
the stream of per-iteration environments, starting from the empty state. -/
def generate_dataset (modelId outputDir : String) (md5f : String → String)
    (num_images : Nat) (envs : List ItemEnv) : GenState :=
  runItems modelId outputDir md5f 0 (envs.take num_images) initState

/-- Modelled from the claim wording of C6 (a variant that does NOT match the
source): a per-item step in which the try/except covers only the external
image-generation call, so an exception raised by `image.save` or by the
annotation append would propagate uncaught and abort the batch (`none`). -/
def processItemNarrow (modelId outputDir : String) (md5f : String → String)
    (i : Nat) (e : ItemEnv) (s : GenState) : Option GenState :=
  let ev0 := s.events ++
    [Event.promptBuilt (itemPrompt modelId e) (itemNegPrompt modelId e) (itemMeta modelId e)]
  if e.genOk = false then
    some { s with interrupted := s.interrupted || e.sigint,
                  events := ev0 ++ [Event.errorLogged i] }
  else
    let ev1 := ev0 ++ [Event.genCalled (itemKwargs modelId e)]
    let fp := itemFilepath modelId outputDir md5f i e
    if e.saveOk = false then
      none
    else
      let ev2 := ev1 ++ [Event.imageSaved fp]
      let r := itemRecord modelId md5f i e
      if e.writeOk = false then
        none
      else
        some { s with interrupted := s.interrupted || e.sigint,
                      annRecords := s.annRecords ++ [r],
                      files := s.files ++ [fp],
                      logLines := s.logLines ++ [r],
                      events := ev2 ++ [Event.lineAppended r] }

/-- Modelled from the claim wording of C6: the loop over the narrow-try
variant; an uncaught exception aborts the whole batch. -/
def runItemsNarrow (modelId outputDir : String) (md5f : String → String) :
    Nat → List ItemEnv → GenState → Option GenState
  | _, [], s => some s
  | i, e :: rest, s =>
    if s.interrupted = true then some s
    else
      match processItemNarrow modelId outputDir md5f i e s with
      | none => none
      | some s2 => runItemsNarrow modelId outputDir md5f (i + 1) rest s2

/-! Concrete sample inputs used by witnesses and counterexamples. -/

def draw0 : Draw :=
  { postureIdx := 0, cvaOff := 0, ageIdx := 0, genderIdx := 0, ethIdx := 0,
    buildIdx := 0, hairIdx := 0, glassesIdx := 0, lightIdx := 0, bgIdx := 0,
    camIdx := 0, clothIdx := 0, colorIdx := 0, actIdx := 0, exprIdx := 0,
    tstamp := "2025-01-01T00:00:00" }

def envOk : ItemEnv :=
  { category := "interrupt-worthy", draw := draw0, seed := 0,
    genOk := true, saveOk := true, writeOk := true, sigint := false }

def envSig : ItemEnv := { envOk with sigint := true }

def envGenFail : ItemEnv := { envOk with genOk := false }

def envSaveFail : ItemEnv := { envOk with saveOk := false }

def envWriteFail : ItemEnv := { envOk with writeOk := false }

def hash8 : String → String := fun _ => "00000000"

/-! Helper lemmas. -/

theorem pick_mem (l : List String) (i : Nat) (h : l ≠ []) : pick l i ∈ l := by
  have hl : 0 < l.length := List.length_pos.mpr h
  have hm : i % l.length < l.length := Nat.mod_lt _ hl
  unfold pick
  rw [List.getD_eq_getElem _ _ hm]
  exact List.getElem_mem hm

theorem randint_lower (lo hi off : Nat) : lo ≤ randint lo hi off :=
  Nat.le_add_right lo _

theorem randint_upper (lo hi off : Nat) (h : lo ≤ hi) : randint lo hi off ≤ hi := by
  unfold randint
  have h2 : off % (hi + 1 - lo) < hi + 1 - lo := Nat.mod_lt _ (by omega)
  omega

theorem processItem_genFail (modelId outputDir : String) (md5f : String → String)
    (i : Nat) (e : ItemEnv) (s : GenState) (hg : e.genOk = false) :
    processItem modelId outputDir md5f i e s =
      { s with interrupted := s.interrupted || e.sigint,
               events := s.events ++
                 [Event.promptBuilt (itemPrompt modelId e) (itemNegPrompt modelId e)
                    (itemMeta modelId e),
                  Event.errorLogged i] } := by
  simp [processItem, hg]

theorem processItem_saveFail (modelId outputDir : String) (md5f : String → String)
    (i : Nat) (e : ItemEnv) (s : GenState) (hg : e.genOk = true) (hs : e.saveOk = false) :
    processItem modelId outputDir md5f i e s =
      { s with interrupted := s.interrupted || e.sigint,
               events := s.events ++
                 [Event.promptBuilt (itemPrompt modelId e) (itemNegPrompt modelId e)
                    (itemMeta modelId e),
                  Event.genCalled (itemKwargs modelId e),
                  Event.errorLogged i] } := by
  simp [processItem, hg, hs]

theorem processItem_writeFail (modelId outputDir : String) (md5f : String → String)
    (i : Nat) (e : ItemEnv) (s : GenState)
    (hg : e.genOk = true) (hs : e.saveOk = true) (hwf : e.writeOk = false) :
    processItem modelId outputDir md5f i e s =
      { s with interrupted := s.interrupted || e.sigint,
               annRecords := s.annRecords ++ [itemRecord modelId md5f i e],
               files := s.files ++ [itemFilepath modelId outputDir md5f i e],
               events := s.events ++
                 [Event.promptBuilt (itemPrompt modelId e) (itemNegPrompt modelId e)
                    (itemMeta modelId e),
                  Event.genCalled (itemKwargs modelId e),
                  Event.imageSaved (itemFilepath modelId outputDir md5f i e),
                  Event.errorLogged i] } := by
  simp [processItem, hg, hs, hwf]

theorem processItem_success (modelId outputDir : String) (md5f : String → String)
    (i : Nat) (e : ItemEnv) (s : GenState)
    (hg : e.genOk = true) (hs : e.saveOk = true) (hw : e.writeOk = true) :
    processItem modelId outputDir md5f i e s =
      { s with interrupted := s.interrupted || e.sigint,
               annRecords := s.annRecords ++ [itemRecord modelId md5f i e],
               files := s.files ++ [itemFilepath modelId outputDir md5f i e],
               logLines := s.logLines ++ [itemRecord modelId md5f i e],
               events := s.events ++
                 [Event.promptBuilt (itemPrompt modelId e) (itemNegPrompt modelId e)
                    (itemMeta modelId e),
                  Event.genCalled (itemKwargs modelId e),
                  Event.imageSaved (itemFilepath modelId outputDir md5f i e),
                  Event.lineAppended (itemRecord modelId md5f i e)] } := by
  simp [processItem, hg, hs, hw]

theorem processItem_interrupted (modelId outputDir : String) (md5f : String → String)
    (i : Nat) (e : ItemEnv) (s : GenState) :
    (processItem modelId outputDir md5f i e s).interrupted = (s.interrupted || e.sigint) := by
  unfold processItem
  cases e.genOk <;> cases e.saveOk <;> cases e.writeOk <;> simp

theorem processItem_logLines_cases (modelId outputDir : String) (md5f : String → String)
    (i : Nat) (e : ItemEnv) (s : GenState) :
    (processItem modelId outputDir md5f i e s).logLines = s.logLines
    ∨ (processItem modelId outputDir md5f i e s).logLines
        = s.logLines ++ [itemRecord modelId md5f i e] := by
  unfold processItem
  cases e.genOk <;> cases e.saveOk <;> cases e.writeOk <;> simp

theorem runItems_stop (modelId outputDir : String) (md5f : String → String)
    (i : Nat) (l : List ItemEnv) (s : GenState) (h : s.interrupted = true) :
    runItems modelId outputDir md5f i l s = s := by
  cases l with
  | nil => rfl
  | cons e rest => simp [runItems, h]

theorem runItems_step (modelId outputDir : String) (md5f : String → String)
    (i : Nat) (e : ItemEnv) (l : List ItemEnv) (s : GenState) (h : s.interrupted = false) :
    runItems modelId outputDir md5f i (e :: l) s
      = runItems modelId outputDir md5f (i + 1) l (processItem modelId outputDir md5f i e s) := by
  simp [runItems, h]

theorem processItem_counts (modelId outputDir : String) (md5f : String → String)
    (i : Nat) (e : ItemEnv) (s : GenState)
    (hw : e.genOk = true → e.saveOk = true → e.writeOk = true)
    (h0 : s.logLines.length = s.files.length) :
    (processItem modelId outputDir md5f i e s).logLines.length
      = (processItem modelId outputDir md5f i e s).files.length := by
  cases hg : e.genOk with
  | false => rw [processItem_genFail modelId outputDir md5f i e s hg]; exact h0
  | true =>
    cases hs : e.saveOk with
    | false => rw [processItem_saveFail modelId outputDir md5f i e s hg hs]; exact h0
    | true =>
      rw [processItem_success modelId outputDir md5f i e s hg hs (hw hg hs)]
      simp [h0]

theorem runItems_counts (modelId outputDir : String) (md5f : String → String) :
    ∀ (l : List ItemEnv) (i : Nat) (s : GenState),
      (∀ x ∈ l, x.genOk = true → x.saveOk = true → x.writeOk = true) →
      s.logLines.length = s.files.length →
      (runItems modelId outputDir md5f i l s).logLines.length
        = (runItems modelId outputDir md5f i l s).files.length := by
  intro l
  induction l with
  | nil => intro i s _ h0; exact h0
  | cons e rest ih =>
    intro i s hall h0
    by_cases hint : s.interrupted = true
    · rw [runItems_stop modelId outputDir md5f i (e :: rest) s hint]; exact h0
    · have hint2 : s.interrupted = false := Bool.eq_false_iff.mpr hint
      rw [runItems_step modelId outputDir md5f i e rest s hint2]
      exact ih (i + 1) _ (fun x hx => hall x (List.mem_cons_of_mem _ hx))
        (processItem_counts modelId outputDir md5f i e s
          (hall e (List.mem_cons_self _ _)) h0)

theorem runItems_logLines_mem (modelId outputDir : String) (md5f : String → String) :
    ∀ (l : List ItemEnv) (i : Nat) (s : GenState) (r : AnnRecord),
      r ∈ (runItems modelId outputDir md5f i l s).logLines →
      r ∈ s.logLines ∨ ∃ j e, r = itemRecord modelId md5f j e := by
  intro l
  induction l with
  | nil => intro i s r hr; exact Or.inl hr
  | cons e rest ih =>
    intro i s r hr
    by_cases hint : s.interrupted = true
    · rw [runItems_stop modelId outputDir md5f i (e :: rest) s hint] at hr
      exact Or.inl hr
    · have hint2 : s.interrupted = false := Bool.eq_false_iff.mpr hint
      rw [runItems_step modelId outputDir md5f i e rest s hint2] at hr
      rcases ih (i + 1) _ r hr with h | h
      · rcases processItem_logLines_cases modelId outputDir md5f i e s with hc | hc
        · rw [hc] at h; exact Or.inl h
        · rw [hc] at h
          rcases List.mem_append.mp h with h2 | h2
          · exact Or.inl h2
          · exact Or.inr ⟨i, e, List.mem_singleton.mp h2⟩
      · exact Or.inr h

theorem itemRecord_classification (modelId : String) (md5f : String → String)
    (i : Nat) (e : ItemEnv) :
    ((itemRecord modelId md5f i e).classification = "interrupt-worthy"
       ∨ (itemRecord modelId md5f i e).classification = "leave-me-alone")
    ∧ ((itemRecord modelId md5f i e).classification = "interrupt-worthy"
       ↔ (itemRecord modelId md5f i e).category = "interrupt-worthy") := by
  unfold itemRecord
  by_cases h : e.category = "interrupt-worthy" <;> simp [h]

/-! Claim theorems. -/

/-- C1: if a SIGINT arrives while an item is in flight, the handler only sets
the interrupt flag, so the item is finished completely — when its external
calls succeed, its image file is recorded and its annotation line appended —
and the loop then stops before starting any further item: the run on the
remaining environments equals just the in-flight item's step. -/
theorem c1_interrupt_finishes_item (modelId outputDir : String) (md5f : String → String)
    (i : Nat) (e : ItemEnv) (rest : List ItemEnv) (s : GenState)
    (hni : s.interrupted = false) (hsig : e.sigint = true) :
    runItems modelId outputDir md5f i (e :: rest) s
      = processItem modelId outputDir md5f i e s
    ∧ (processItem modelId outputDir md5f i e s).interrupted = true
    ∧ (e.genOk = true → e.saveOk = true → e.writeOk = true →
        (processItem modelId outputDir md5f i e s).files
            = s.files ++ [itemFilepath modelId outputDir md5f i e]
        ∧ (processItem modelId outputDir md5f i e s).logLines
            = s.logLines ++ [itemRecord modelId md5f i e]) := by
  have hintr : (processItem modelId outputDir md5f i e s).interrupted = true := by
    rw [processItem_interrupted, hsig, Bool.or_true]
  refine ⟨?_, hintr, ?_⟩
  · rw [runItems_step modelId outputDir md5f i e rest s hni,
        runItems_stop modelId outputDir md5f (i + 1) rest _ hintr]
  · intro hg hs hw
    rw [processItem_success modelId outputDir md5f i e s hg hs hw]
    exact ⟨rfl, rfl⟩

/-- Witness for C1 at a concrete interrupted-but-successful item. -/
theorem c1_interrupt_finishes_item_witness :
    runItems "sdxl" "out" hash8 0 [envSig] initState
      = processItem "sdxl" "out" hash8 0 envSig initState
    ∧ (processItem "sdxl" "out" hash8 0 envSig initState).interrupted = true
    ∧ (envSig.genOk = true → envSig.saveOk = true → envSig.writeOk = true →
        (processItem "sdxl" "out" hash8 0 envSig initState).files
            = initState.files ++ [itemFilepath "sdxl" "out" hash8 0 envSig]
        ∧ (processItem "sdxl" "out" hash8 0 envSig initState).logLines
            = initState.logLines ++ [itemRecord "sdxl" hash8 0 envSig]) :=
  c1_interrupt_finishes_item "sdxl" "out" hash8 0 envSig [] initState rfl rfl

/-- C2: if the generation-and-save step of an item raises (either the external
pipeline call or the image save), the failure is logged and the loop continues
with the next item; no annotation record is appended for the failed item
(neither to the in-memory list nor to the log file), no file is recorded, and
the batch is not terminated. -/
theorem c2_item_failure_continues (modelId outputDir : String) (md5f : String → String)
    (i : Nat) (e : ItemEnv) (rest : List ItemEnv) (s : GenState)
    (hni : s.interrupted = false) (hsig : e.sigint = false)
    (hfail : e.genOk = false ∨ (e.genOk = true ∧ e.saveOk = false)) :
    runItems modelId outputDir md5f i (e :: rest) s
      = runItems modelId outputDir md5f (i + 1) rest (processItem modelId outputDir md5f i e s)
    ∧ (processItem modelId outputDir md5f i e s).interrupted = false
    ∧ (processItem modelId outputDir md5f i e s).logLines = s.logLines
    ∧ (processItem modelId outputDir md5f i e s).annRecords = s.annRecords
    ∧ (processItem modelId outputDir md5f i e s).files = s.files
    ∧ (∃ evs, (processItem modelId outputDir md5f i e s).events
        = s.events ++ evs ++ [Event.errorLogged i]) := by
  have hintr : (processItem modelId outputDir md5f i e s).interrupted = false := by
    rw [processItem_interrupted, hni, hsig]; rfl
  refine ⟨runItems_step modelId outputDir md5f i e rest s hni, hintr, ?_⟩
  rcases hfail with hg | ⟨hg, hs⟩
  · rw [processItem_genFail modelId outputDir md5f i e s hg]
    refine ⟨rfl, rfl, rfl,
      [Event.promptBuilt (itemPrompt modelId e) (itemNegPrompt modelId e) (itemMeta modelId e)],
      ?_⟩
    simp
  · rw [processItem_saveFail modelId outputDir md5f i e s hg hs]
    refine ⟨rfl, rfl, rfl,
      [Event.promptBuilt (itemPrompt modelId e) (itemNegPrompt modelId e) (itemMeta modelId e),
       Event.genCalled (itemKwargs modelId e)],
      ?_⟩
    simp

/-- Witness for C2 at a concrete item whose generation call fails. -/
theorem c2_item_failure_continues_witness :
    runItems "sdxl" "out" hash8 0 [envGenFail] initState
      = runItems "sdxl" "out" hash8 1 [] (processItem "sdxl" "out" hash8 0 envGenFail initState)
    ∧ (processItem "sdxl" "out" hash8 0 envGenFail initState).interrupted = false
    ∧ (processItem "sdxl" "out" hash8 0 envGenFail initState).logLines = initState.logLines
    ∧ (processItem "sdxl" "out" hash8 0 envGenFail initState).annRecords = initState.annRecords
    ∧ (processItem "sdxl" "out" hash8 0 envGenFail initState).files = initState.files
    ∧ (∃ evs, (processItem "sdxl" "out" hash8 0 envGenFail initState).events
        = initState.events ++ evs ++ [Event.errorLogged 0]) :=
  c2_item_failure_continues "sdxl" "out" hash8 0 envGenFail [] initState rfl rfl (Or.inl rfl)

/-- C3 counterexample: a one-item run in which the external generation call
and the image save succeed but the append to `annotations.jsonl` raises (the
append sits inside the same try block) writes one image file and appends zero
annotation records — the two counts differ, refuting the claimed equality. -/
theorem c3_counterexample :
    (generate_dataset "sdxl" "out" hash8 1 [envWriteFail]).files.length = 1
    ∧ (generate_dataset "sdxl" "out" hash8 1 [envWriteFail]).logLines.length = 0
    ∧ (generate_dataset "sdxl" "out" hash8 1 [envWriteFail]).logLines.length
        ≠ (generate_dataset "sdxl" "out" hash8 1 [envWriteFail]).files.length :=
  ⟨by decide, by decide, by decide⟩

/-- C3 (amended): every successfully processed item performs, in order,
prompt construction, the external generation call, the image-file write, and
the append of exactly one annotation line; and after a run in which every
item that generated and saved an image also succeeded in appending its
annotation line, the number of appended annotation records equals the number
of image files written. -/
theorem c3_success_order_and_counts (modelId outputDir : String) (md5f : String → String)
    (i : Nat) (e : ItemEnv) (s : GenState)
    (hg : e.genOk = true) (hs : e.saveOk = true) (hw : e.writeOk = true)
    (n : Nat) (envs : List ItemEnv)
    (henv : ∀ x ∈ envs, x.genOk = true → x.saveOk = true → x.writeOk = true) :
    (processItem modelId outputDir md5f i e s).events
      = s.events ++
        [Event.promptBuilt (itemPrompt modelId e) (itemNegPrompt modelId e) (itemMeta modelId e),
         Event.genCalled (itemKwargs modelId e),
         Event.imageSaved (itemFilepath modelId outputDir md5f i e),
         Event.lineAppended (itemRecord modelId md5f i e)]
    ∧ (processItem modelId outputDir md5f i e s).logLines
        = s.logLines ++ [itemRecord modelId md5f i e]
    ∧ (processItem modelId outputDir md5f i e s).files
        = s.files ++ [itemFilepath modelId outputDir md5f i e]
    ∧ (generate_dataset modelId outputDir md5f n envs).logLines.length
        = (generate_dataset modelId outputDir md5f n envs).files.length := by
  rw [processItem_success modelId outputDir md5f i e s hg hs hw]
  refine ⟨rfl, rfl, rfl, ?_⟩
  exact runItems_counts modelId outputDir md5f (envs.take n) 0 initState
    (fun x hx => henv x (List.take_subset n envs hx)) rfl

/-- Witness for C3 (amended) at a concrete all-successful run. -/
theorem c3_success_order_and_counts_witness :
    (processItem "sdxl" "out" hash8 0 envOk initState).events
      = initState.events ++
        [Event.promptBuilt (itemPrompt "sdxl" envOk) (itemNegPrompt "sdxl" envOk)
           (itemMeta "sdxl" envOk),
         Event.genCalled (itemKwargs "sdxl" envOk),
         Event.imageSaved (itemFilepath "sdxl" "out" hash8 0 envOk),
         Event.lineAppended (itemRecord "sdxl" hash8 0 envOk)]
    ∧ (processItem "sdxl" "out" hash8 0 envOk initState).logLines
        = initState.logLines ++ [itemRecord "sdxl" hash8 0 envOk]
    ∧ (processItem "sdxl" "out" hash8 0 envOk initState).files
        = initState.files ++ [itemFilepath "sdxl" "out" hash8 0 envOk]
    ∧ (generate_dataset "sdxl" "out" hash8 1 [envOk]).logLines.length
        = (generate_dataset "sdxl" "out" hash8 1 [envOk]).files.length :=
  c3_success_order_and_counts "sdxl" "out" hash8 0 envOk initState rfl rfl rfl 1 [envOk]
    (by decide)

/-- C4: for every posture type, `generate_prompt` returns prompt text,
negative-prompt text and a metadata record; each recorded attribute is drawn
from its attribute list (the posture description from the severity list of
the posture type), the record carries the posture type twice, the CVA angle
consistently, and the prompt text is built from exactly the attribute values
recorded in the metadata. -/
theorem c4_metadata_records_choices (modelId posture_type : String) (d : Draw) :
    (metaOf modelId posture_type d).demographics.age ∈ AGES
  ∧ (metaOf modelId posture_type d).demographics.gender ∈ GENDERS
  ∧ (metaOf modelId posture_type d).demographics.ethnicity ∈ ETHNICITIES
  ∧ (metaOf modelId posture_type d).demographics.build ∈ BUILDS
  ∧ (metaOf modelId posture_type d).demographics.hair ∈ HAIR_STYLES
  ∧ (metaOf modelId posture_type d).demographics.glasses ∈ GLASSES
  ∧ (metaOf modelId posture_type d).appearance.clothing ∈ CLOTHING
  ∧ (metaOf modelId posture_type d).appearance.color ∈ COLORS
  ∧ (metaOf modelId posture_type d).environment.lighting ∈ LIGHTING
  ∧ (metaOf modelId posture_type d).environment.background ∈ BACKGROUNDS
  ∧ (metaOf modelId posture_type d).environment.camera ∈ CAMERA_ANGLES
  ∧ (metaOf modelId posture_type d).context.activity ∈ ACTIVITIES
  ∧ (metaOf modelId posture_type d).context.expression ∈ EXPRESSIONS
  ∧ (metaOf modelId posture_type d).posture.description ∈
      (if posture_type = "interrupt-worthy" then POSTURE_SEVERE
       else if posture_type = "borderline" then POSTURE_MODERATE
       else POSTURE_NORMAL)
  ∧ (metaOf modelId posture_type d).posture_type = posture_type
  ∧ (metaOf modelId posture_type d).posture.ptype = posture_type
  ∧ (metaOf modelId posture_type d).posture.cva_angle
      = (metaOf modelId posture_type d).cva_angle
  ∧ promptOf modelId posture_type d
      = promptText modelId ((metaOf modelId posture_type d).demographics.age)
          ((metaOf modelId posture_type d).demographics.gender)
          ((metaOf modelId posture_type d).demographics.ethnicity)
          ((metaOf modelId posture_type d).demographics.hair)
          ((metaOf modelId posture_type d).demographics.glasses)
          ((metaOf modelId posture_type d).appearance.clothing)
          ((metaOf modelId posture_type d).appearance.color)
          ((metaOf modelId posture_type d).environment.lighting)
          ((metaOf modelId posture_type d).environment.background)
          ((metaOf modelId posture_type d).environment.camera)
          ((metaOf modelId posture_type d).context.activity)
          ((metaOf modelId posture_type d).context.expression)
          ((metaOf modelId posture_type d).posture.description) := by
  refine ⟨pick_mem AGES d.ageIdx (by decide), pick_mem GENDERS d.genderIdx (by decide),
    pick_mem ETHNICITIES d.ethIdx (by decide), pick_mem BUILDS d.buildIdx (by decide),
    pick_mem HAIR_STYLES d.hairIdx (by decide), pick_mem GLASSES d.glassesIdx (by decide),
    pick_mem CLOTHING d.clothIdx (by decide), pick_mem COLORS d.colorIdx (by decide),
    pick_mem LIGHTING d.lightIdx (by decide), pick_mem BACKGROUNDS d.bgIdx (by decide),
    pick_mem CAMERA_ANGLES d.camIdx (by decide), pick_mem ACTIVITIES d.actIdx (by decide),
    pick_mem EXPRESSIONS d.exprIdx (by decide), ?_, rfl, rfl, rfl, rfl⟩
  show postureDescOf posture_type d ∈ _
  unfold postureDescOf
  by_cases h1 : posture_type = "interrupt-worthy"
  · rw [if_pos h1, if_pos h1]; exact pick_mem _ _ (by decide)
  · rw [if_neg h1, if_neg h1]
    by_cases h2 : posture_type = "borderline"
    · rw [if_pos h2, if_pos h2]; exact pick_mem _ _ (by decide)
    · rw [if_neg h2, if_neg h2]; exact pick_mem _ _ (by decide)

/-- C5: the inference parameters are a pure function of the model identifier,
dispatched in the source's priority order — FLUX: 768x1024, 28 steps,
guidance 3.5; then SD3: 768x1024, 28 steps, guidance 7.0; then turbo or
lightning: 2 steps, guidance 0.0; then SDXL/RealVis: 768x1024, 45 steps,
guidance 7.5; all remaining models: 384x512, 40 steps, guidance 7.5. -/
theorem c5_dispatch_table (modelId p np : String) (seed : Nat) :
    ((modelFlags modelId).is_flux = true →
       (generate_image_kwargs modelId p np seed).width = 768
       ∧ (generate_image_kwargs modelId p np seed).height = 1024
       ∧ (generate_image_kwargs modelId p np seed).num_inference_steps = 28
       ∧ (generate_image_kwargs modelId p np seed).guidance_scale = 7 / 2)
  ∧ ((modelFlags modelId).is_flux = false → (modelFlags modelId).is_sd3 = true →
       (generate_image_kwargs modelId p np seed).width = 768
       ∧ (generate_image_kwargs modelId p np seed).height = 1024
       ∧ (generate_image_kwargs modelId p np seed).num_inference_steps = 28
       ∧ (generate_image_kwargs modelId p np seed).guidance_scale = 7)
  ∧ ((modelFlags modelId).is_flux = false → (modelFlags modelId).is_sd3 = false →
     ((modelFlags modelId).is_turbo = true ∨ (modelFlags modelId).is_lightning = true) →
       (generate_image_kwargs modelId p np seed).num_inference_steps = 2
       ∧ (generate_image_kwargs modelId p np seed).guidance_scale = 0)
  ∧ ((modelFlags modelId).is_flux = false → (modelFlags modelId).is_sd3 = false →
     (modelFlags modelId).is_turbo = false → (modelFlags modelId).is_lightning = false →
     (modelFlags modelId).is_sdxl = true →
       (generate_image_kwargs modelId p np seed).width = 768
       ∧ (generate_image_kwargs modelId p np seed).height = 1024
       ∧ (generate_image_kwargs modelId p np seed).num_inference_steps = 45
       ∧ (generate_image_kwargs modelId p np seed).guidance_scale = 15 / 2)
  ∧ ((modelFlags modelId).is_flux = false → (modelFlags modelId).is_sd3 = false →
     (modelFlags modelId).is_turbo = false → (modelFlags modelId).is_lightning = false →
     (modelFlags modelId).is_sdxl = false →
       (generate_image_kwargs modelId p np seed).width = 384
       ∧ (generate_image_kwargs modelId p np seed).height = 512
       ∧ (generate_image_kwargs modelId p np seed).num_inference_steps = 40
       ∧ (generate_image_kwargs modelId p np seed).guidance_scale = 15 / 2) := by
  refine ⟨?_, ?_, ?_, ?_, ?_⟩
  · intro h1
    refine ⟨?_, ?_, ?_, ?_⟩ <;>
      simp [generate_image_kwargs, initSteps, guidanceScale, resHeight, resWidth, h1]
  · intro h1 h2
    refine ⟨?_, ?_, ?_, ?_⟩ <;>
      simp [generate_image_kwargs, initSteps, guidanceScale, resHeight, resWidth, h1, h2]
  · intro h1 h2 h3
    rcases h3 with h3 | h3
    · refine ⟨?_, ?_⟩ <;>
        simp [generate_image_kwargs, initSteps, guidanceScale, h1, h2, h3]
    · refine ⟨?_, ?_⟩ <;>
        simp [generate_image_kwargs, initSteps, guidanceScale, h1, h2, h3]
  · intro h1 h2 h3 h4 h5
    refine ⟨?_, ?_, ?_, ?_⟩ <;>
      simp [generate_image_kwargs, initSteps, guidanceScale, resHeight, resWidth,
        h1, h2, h3, h4, h5]
  · intro h1 h2 h3 h4 h5
    refine ⟨?_, ?_, ?_, ?_⟩ <;>
      simp [generate_image_kwargs, initSteps, guidanceScale, resHeight, resWidth,
        h1, h2, h3, h4, h5]

/-- Witness for C5 at one concrete model identifier per dispatch row. -/
theorem c5_dispatch_table_witness :
    (generate_image_kwargs "black-forest-labs/FLUX.1-dev" "p" "n" 0).num_inference_steps = 28
    ∧ (generate_image_kwargs "stabilityai/stable-diffusion-3-medium-diffusers" "p" "n" 0).guidance_scale = 7
    ∧ (generate_image_kwargs "stabilityai/sdxl-turbo" "p" "n" 0).num_inference_steps = 2
    ∧ (generate_image_kwargs "SG161222/RealVisXL_V4.0" "p" "n" 0).num_inference_steps = 45
    ∧ (generate_image_kwargs "runwayml/stable-diffusion-v1-5" "p" "n" 0).num_inference_steps = 40 := by
  refine ⟨?_, ?_, ?_, ?_, ?_⟩
  · exact ((c5_dispatch_table "black-forest-labs/FLUX.1-dev" "p" "n" 0).1 (by decide)).2.2.1
  · exact ((c5_dispatch_table "stabilityai/stable-diffusion-3-medium-diffusers" "p" "n" 0).2.1
      (by decide) (by decide)).2.2.2
  · exact ((c5_dispatch_table "stabilityai/sdxl-turbo" "p" "n" 0).2.2.1
      (by decide) (by decide) (Or.inl (by decide))).1
  · exact ((c5_dispatch_table "SG161222/RealVisXL_V4.0" "p" "n" 0).2.2.2.1
      (by decide) (by decide) (by decide) (by decide) (by decide)).2.2.1
  · exact ((c5_dispatch_table "runwayml/stable-diffusion-v1-5" "p" "n" 0).2.2.2.2
      (by decide) (by decide) (by decide) (by decide) (by decide)).2.2.1

/-- C6 counterexample: with a first item whose image save raises and a second
item that succeeds, the program recovers from the save failure and completes
the second item (one annotation line), whereas the claim's narrow-try model —
in which only the external generation call is covered — aborts the batch.
The try/except therefore covers more than the external call. -/
theorem c6_counterexample :
    (generate_dataset "sdxl" "out" hash8 2 [envSaveFail, envOk]).logLines.length = 1
    ∧ runItemsNarrow "sdxl" "out" hash8 0 [envSaveFail, envOk] initState = none :=
  ⟨by decide, rfl⟩

/-- C6 (amended): the only failure-recovery logic of the loop is its single
try/except, and it surrounds the whole per-item generation-and-persistence
sequence — the external generation call, image saving and annotation
writing — so a failure in any of those steps is caught and the loop always
continues with the next item; in particular an annotation-write failure is
recovered after the image file was already written. -/
theorem c6_try_covers_persistence (modelId outputDir : String) (md5f : String → String)
    (i : Nat) (e : ItemEnv) (rest : List ItemEnv) (s : GenState)
    (hni : s.interrupted = false) (hsig : e.sigint = false) :
    runItems modelId outputDir md5f i (e :: rest) s
      = runItems modelId outputDir md5f (i + 1) rest (processItem modelId outputDir md5f i e s)
    ∧ (processItem modelId outputDir md5f i e s).interrupted = false
    ∧ (e.genOk = true → e.saveOk = true → e.writeOk = false →
        (processItem modelId outputDir md5f i e s).files
            = s.files ++ [itemFilepath modelId outputDir md5f i e]
        ∧ (processItem modelId outputDir md5f i e s).logLines = s.logLines
        ∧ (processItem modelId outputDir md5f i e s).events
            = s.events ++
              [Event.promptBuilt (itemPrompt modelId e) (itemNegPrompt modelId e)
                 (itemMeta modelId e),
               Event.genCalled (itemKwargs modelId e),
               Event.imageSaved (itemFilepath modelId outputDir md5f i e),
               Event.errorLogged i]) := by
  have hintr : (processItem modelId outputDir md5f i e s).interrupted = false := by
    rw [processItem_interrupted, hni, hsig]; rfl
  refine ⟨runItems_step modelId outputDir md5f i e rest s hni, hintr, ?_⟩
  intro hg hs hwf
  rw [processItem_writeFail modelId outputDir md5f i e s hg hs hwf]
  exact ⟨rfl, rfl, rfl⟩

/-- Witness for C6 (amended) at a concrete item whose annotation write fails. -/
theorem c6_try_covers_persistence_witness :
    runItems "sdxl" "out" hash8 0 [envWriteFail] initState
      = runItems "sdxl" "out" hash8 1 []
          (processItem "sdxl" "out" hash8 0 envWriteFail initState)
    ∧ (processItem "sdxl" "out" hash8 0 envWriteFail initState).interrupted = false
    ∧ (envWriteFail.genOk = true → envWriteFail.saveOk = true → envWriteFail.writeOk = false →
        (processItem "sdxl" "out" hash8 0 envWriteFail initState).files
            = initState.files ++ [itemFilepath "sdxl" "out" hash8 0 envWriteFail]
        ∧ (processItem "sdxl" "out" hash8 0 envWriteFail initState).logLines
            = initState.logLines
        ∧ (processItem "sdxl" "out" hash8 0 envWriteFail initState).events
            = initState.events ++
              [Event.promptBuilt (itemPrompt "sdxl" envWriteFail)
                 (itemNegPrompt "sdxl" envWriteFail) (itemMeta "sdxl" envWriteFail),
               Event.genCalled (itemKwargs "sdxl" envWriteFail),
               Event.imageSaved (itemFilepath "sdxl" "out" hash8 0 envWriteFail),
               Event.errorLogged 0]) :=
  c6_try_covers_persistence "sdxl" "out" hash8 0 envWriteFail [] initState rfl rfl

/-- C7: changing only the CVA-angle draw leaves the prompt and the negative
prompt unchanged, and therefore also everything `generate_image` receives and
passes to the pipeline; the CVA angle influences only the metadata record. -/
theorem c7_cva_is_label_only (modelId posture_type : String) (d : Draw)
    (c : Nat) (seed : Nat) :
    promptOf modelId posture_type { d with cvaOff := c }
      = promptOf modelId posture_type d
    ∧ negPromptOf modelId posture_type { d with cvaOff := c }
      = negPromptOf modelId posture_type d
    ∧ generate_image_kwargs modelId (promptOf modelId posture_type { d with cvaOff := c })
        (negPromptOf modelId posture_type { d with cvaOff := c }) seed
      = generate_image_kwargs modelId (promptOf modelId posture_type d)
          (negPromptOf modelId posture_type d) seed :=
  ⟨rfl, rfl, rfl⟩

/-- C8: every annotation record appended to the log by `generate_dataset` has
classification "interrupt-worthy" or "leave-me-alone", and it is
"interrupt-worthy" exactly when the item's category is "interrupt-worthy". -/
theorem c8_classification_binary (modelId outputDir : String) (md5f : String → String)
    (n : Nat) (envs : List ItemEnv) (r : AnnRecord)
    (hr : r ∈ (generate_dataset modelId outputDir md5f n envs).logLines) :
    (r.classification = "interrupt-worthy" ∨ r.classification = "leave-me-alone")
    ∧ (r.classification = "interrupt-worthy" ↔ r.category = "interrupt-worthy") := by
  rcases runItems_logLines_mem modelId outputDir md5f (envs.take n) 0 initState r hr with
    h | ⟨j, e, he⟩
  · exact absurd h (List.not_mem_nil r)
  · rw [he]
    exact itemRecord_classification modelId md5f j e

/-- Witness for C8 at the record of a concrete successful run. -/
theorem c8_classification_binary_witness :
    ((itemRecord "sdxl" hash8 0 envOk).classification = "interrupt-worthy"
       ∨ (itemRecord "sdxl" hash8 0 envOk).classification = "leave-me-alone")
    ∧ ((itemRecord "sdxl" hash8 0 envOk).classification = "interrupt-worthy"
       ↔ (itemRecord "sdxl" hash8 0 envOk).category = "interrupt-worthy") :=
  c8_classification_binary "sdxl" "out" hash8 1 [envOk] (itemRecord "sdxl" hash8 0 envOk)
    (by rw [show (generate_dataset "sdxl" "out" hash8 1 [envOk]).logLines
          = [itemRecord "sdxl" hash8 0 envOk] from rfl]
        exact List.mem_singleton.mpr rfl)

/-- C9: the CVA angle recorded by `generate_prompt` lies in [30,48] for
"interrupt-worthy", in [48,53] for "borderline", and in [53,70] for every
other posture type; the boundary values 48 and 53 are each attained by two
adjacent categories. -/
theorem c9_cva_ranges (modelId posture_type : String) (d : Draw) :
    (posture_type = "interrupt-worthy" →
       30 ≤ (metaOf modelId posture_type d).cva_angle
       ∧ (metaOf modelId posture_type d).cva_angle ≤ 48)
  ∧ (posture_type = "borderline" →
       48 ≤ (metaOf modelId posture_type d).cva_angle
       ∧ (metaOf modelId posture_type d).cva_angle ≤ 53)
  ∧ (posture_type ≠ "interrupt-worthy" → posture_type ≠ "borderline" →
       53 ≤ (metaOf modelId posture_type d).cva_angle
       ∧ (metaOf modelId posture_type d).cva_angle ≤ 70)
  ∧ (metaOf modelId "interrupt-worthy" { draw0 with cvaOff := 18 }).cva_angle = 48
  ∧ (metaOf modelId "borderline" draw0).cva_angle = 48
  ∧ (metaOf modelId "borderline" { draw0 with cvaOff := 5 }).cva_angle = 53
  ∧ (metaOf modelId "leave-me-alone" draw0).cva_angle = 53 := by
  have key : ∀ (pt : String) (dd : Draw),
      (metaOf modelId pt dd).cva_angle = cvaOf pt dd := fun _ _ => rfl
  refine ⟨?_, ?_, ?_, rfl, rfl, rfl, rfl⟩
  · intro h
    rw [key, cvaOf, if_pos h]
    exact ⟨randint_lower _ _ _, randint_upper _ _ _ (by omega)⟩
  · intro h
    rw [key, cvaOf, if_neg ?hne, if_pos h]
    · exact ⟨randint_lower _ _ _, randint_upper _ _ _ (by omega)⟩
    · rw [h]; decide
  · intro h1 h2
    rw [key, cvaOf, if_neg h1, if_neg h2]
    exact ⟨randint_lower _ _ _, randint_upper _ _ _ (by omega)⟩

/-- Witness for C9 at the "interrupt-worthy" posture type. -/
theorem c9_cva_ranges_witness :
    30 ≤ (metaOf "m" "interrupt-worthy" draw0).cva_angle
    ∧ (metaOf "m" "interrupt-worthy" draw0).cva_angle ≤ 48 :=
  (c9_cva_ranges "m" "interrupt-worthy" draw0).1 rfl

/-- C10: for every model identifier, the negative prompt is passed to the
pipeline exactly when the guidance scale is strictly positive and the
negative prompt is non-empty (and it is otherwise absent — the field is
either that negative prompt or nothing); for a model dispatched to the
turbo/lightning row the guidance scale is 0, so the negative prompt is never
passed — yet the annotation record built by `generate_dataset` still stores
the negative prompt. -/
theorem c10_negative_prompt_gating (modelId p np : String) (seed : Nat)
    (md5f : String → String) (i : Nat) (e : ItemEnv) :
    ((generate_image_kwargs modelId p np seed).negative_prompt = some np
       ↔ 0 < (generate_image_kwargs modelId p np seed).guidance_scale ∧ np ≠ "")
    ∧ ((generate_image_kwargs modelId p np seed).negative_prompt = some np
       ∨ (generate_image_kwargs modelId p np seed).negative_prompt = none)
    ∧ ((modelFlags modelId).is_flux = false → (modelFlags modelId).is_sd3 = false →
       ((modelFlags modelId).is_turbo = true ∨ (modelFlags modelId).is_lightning = true) →
        (generate_image_kwargs modelId p np seed).guidance_scale = 0
        ∧ (generate_image_kwargs modelId p np seed).negative_prompt = none)
    ∧ (itemRecord modelId md5f i e).generation.negative_prompt
        = negPromptOf modelId e.category e.draw := by
  have hiff : ((generate_image_kwargs modelId p np seed).negative_prompt = some np
      ↔ 0 < (generate_image_kwargs modelId p np seed).guidance_scale ∧ np ≠ "") := by
    by_cases hc : 0 < guidanceScale (modelFlags modelId) ∧ np ≠ "" <;>
      simp [generate_image_kwargs, hc]
  refine ⟨hiff, ?_, ?_, rfl⟩
  · by_cases hc : 0 < guidanceScale (modelFlags modelId) ∧ np ≠ ""
    · left
      show (if 0 < guidanceScale (modelFlags modelId) ∧ np ≠ "" then some np else none)
        = some np
      rw [if_pos hc]
    · right
      show (if 0 < guidanceScale (modelFlags modelId) ∧ np ≠ "" then some np else none)
        = none
      rw [if_neg hc]
  · intro h1 h2 h3
    have hg : guidanceScale (modelFlags modelId) = 0 := by
      rcases h3 with h3 | h3 <;> simp [guidanceScale, h1, h2, h3]
    refine ⟨hg, ?_⟩
    show (if 0 < guidanceScale (modelFlags modelId) ∧ np ≠ "" then some np else none) = none
    rw [if_neg]
    rw [hg]
    simp

/-- Witness for C10: a positive-guidance model (SDXL/RealVis, guidance 7.5)
really receives a non-empty negative prompt — the non-vacuous direction of
the gating — while the concrete turbo model "stabilityai/sdxl-turbo" has
guidance 0 and receives none. -/
theorem c10_negative_prompt_gating_witness :
    (generate_image_kwargs "SG161222/RealVisXL_V4.0" "p" "x" 0).negative_prompt = some "x"
    ∧ (generate_image_kwargs "stabilityai/sdxl-turbo" "p" "x" 0).guidance_scale = 0
    ∧ (generate_image_kwargs "stabilityai/sdxl-turbo" "p" "x" 0).negative_prompt = none := by
  refine ⟨?_, ?_, ?_⟩
  · exact (c10_negative_prompt_gating "SG161222/RealVisXL_V4.0" "p" "x" 0 hash8 0 envOk).1.mpr
      ⟨by rw [show (generate_image_kwargs "SG161222/RealVisXL_V4.0" "p" "x" 0).guidance_scale
            = 15 / 2 from rfl]
          norm_num,
       by decide⟩
  · exact ((c10_negative_prompt_gating "stabilityai/sdxl-turbo" "p" "x" 0 hash8 0 envOk).2.2.1
      (by decide) (by decide) (Or.inl (by decide))).1
  · exact ((c10_negative_prompt_gating "stabilityai/sdxl-turbo" "p" "x" 0 hash8 0 envOk).2.2.1
      (by decide) (by decide) (Or.inl (by decide))).2

end PostureSynth
